import Mathlib

/-!
Verification development for the Zora creator-coin classification pipeline
(`batch-classify-creators.py`, `reclassify-creators.py`).

The Python scripts manipulate JSON-shaped dynamic values (dicts, lists,
strings, numbers, booleans and `None`).  We embed those values as `PyVal`
and translate the pipeline's functions over them.  Fallible Python
operations (attribute errors on `.get` of a non-dict, `KeyError` on
subscripts, `len` of a non-sized value, iteration over a non-iterable)
are embedded in the `Option` monad, `none` standing for a raised
exception.
-/

namespace ZoraPipeline

/-- Dynamic JSON-shaped Python value.  Python ints and floats are both
represented as rationals (`num`), matching Python's cross-type numeric
equality (`1500 == 1500.0`). -/
inductive PyVal where
  | none
  | bool (b : Bool)
  | num (q : ℚ)
  | str (s : String)
  | list (xs : List PyVal)
  | dict (entries : List (String × PyVal))

/-- Python identity test `v is None`. -/
def PyVal.isNone : PyVal → Bool
  | .none => true
  | _ => false

/-- Python truthiness: `None`, `False`, `0`, `""`, `[]`, `{}` are falsy. -/
def truthy : PyVal → Bool
  | .none => false
  | .bool b => b
  | .num q => decide (q ≠ 0)
  | .str s => decide (s ≠ "")
  | .list xs => !xs.isEmpty
  | .dict es => !es.isEmpty

/-- First-occurrence association lookup (Python dict values are stored with
unique keys, so first = only occurrence for genuine dicts). -/
def alookup (l : List (String × PyVal)) (k : String) : Option PyVal :=
  match l with
  | [] => Option.none
  | p :: rest => if p.1 = k then some p.2 else alookup rest k

/-- Last-occurrence association lookup: the value a Python dict built from
this entry sequence would hold for `k` (later duplicates override earlier
ones, as in dict displays with `**` spreads and in `json.loads`). -/
def alookupLast (l : List (String × PyVal)) (k : String) : Option PyVal :=
  match l with
  | [] => Option.none
  | p :: rest =>
    match alookupLast rest k with
    | some v => some v
    | Option.none => if p.1 = k then some p.2 else Option.none

/-- Model of `d.get(k, default)` on a Python value: raises (`Option.none`) unless the
receiver is a dict. -/
def pyGet (v : PyVal) (k : String) (d : PyVal) : Option PyVal :=
  match v with
  | .dict es => some ((alookup es k).getD d)
  | _ => Option.none

/-- Subscript `v[k]` with a string key: `KeyError`/`TypeError` (`Option.none`) unless
the receiver is a dict holding the key. -/
def pySubscript (v : PyVal) (k : String) : Option PyVal :=
  match v with
  | .dict es => alookup es k
  | _ => Option.none

/-- Subscript `v[i]` with a non-negative integer index. -/
def pyIndex (v : PyVal) (i : ℕ) : Option PyVal :=
  match v with
  | .list xs => xs.get? i
  | .str s => (s.toList.get? i).map (fun c => .str c.toString)
  | _ => Option.none

/-- Python `len(v)`; raises for values without a length. -/
def pyLen : PyVal → Option ℕ
  | .str s => some s.length
  | .list xs => some xs.length
  | .dict es => some es.length
  | _ => Option.none

/-- Iterating a Python value (lists yield elements, strings yield one-char
strings, dicts yield their keys). -/
def pyIter : PyVal → Option (List PyVal)
  | .list xs => some xs
  | .str s => some (s.toList.map (fun c => .str c.toString))
  | .dict es => some (es.map (fun p => .str p.1))
  | _ => Option.none

/-- One step of building a Python dict display: a repeated key overwrites
the stored value in place, a fresh key is appended. -/
def pyInsert (d : List (String × PyVal)) (kv : String × PyVal) :
    List (String × PyVal) :=
  if d.any (fun p => p.1 = kv.1) then
    d.map (fun p => if p.1 = kv.1 then (p.1, kv.2) else p)
  else d ++ [kv]

/-- The dict built by a Python dict display (including `**` spreads) whose
entries, in source order, are `entries`. -/
def pyDictLit (entries : List (String × PyVal)) : List (String × PyVal) :=
  entries.foldl pyInsert []

/-! ### Response-text JSON extraction

`classify_creator` extracts a JSON object from the model's free-text
response with `re.search(r'\{[\s\S]*\}', response_text)`: the leftmost
match of this pattern starts at the first `\x7b` of the whole text and,
the Kleene star being greedy, ends at the last `\x7d` of the whole text
(a match exists exactly when some `\x7d` occurs after the first `\x7b`).
-/

/-- Index of the first character satisfying `pred`. -/
def firstIdx (pred : Char → Bool) : List Char → Option ℕ
  | [] => Option.none
  | c :: cs => if pred c then some 0 else (firstIdx pred cs).map (· + 1)

/-- Index of the last character satisfying `pred`. -/
def lastIdx (pred : Char → Bool) (cs : List Char) : Option ℕ :=
  (firstIdx pred cs.reverse).map (fun r => cs.length - 1 - r)

/-- Model of `re.search(r'\{[\s\S]*\}', s)` followed by `.group(0)`, on the
character list of `s`: the substring from the first opening brace to the
last closing brace, if the latter lies after the former. -/
def extractJsonL (cs : List Char) : Option (List Char) :=
  match firstIdx (fun c => c = '\x7b') cs, lastIdx (fun c => c = '\x7d') cs with
  | some i, some j => if i < j then some ((cs.drop i).take (j - i + 1)) else Option.none
  | _, _ => Option.none

/-- String-level JSON-object extraction used on the stripped model
response (`batch-classify-creators.py` lines 191-197). -/
def extractJson (s : String) : Option String :=
  (extractJsonL s.toList).map (fun cs => String.mk cs)

/-! ### Retrying HTTP fetcher (`fetch_with_retry`, lines 44-61)

One attempt's observable outcome: a 200 response whose body parses as
JSON (`ok`), a 429 status (`rateLimited`), any other status
(`badStatus`), or an exception escaping the `try` body — timeout,
transport error, or a body that fails to parse (`exc`). -/

inductive HttpOutcome where
  | ok (body : PyVal)
  | rateLimited
  | badStatus
  | exc

/-- Module constant `RETRY_ATTEMPTS = 3`. -/
def RETRY_ATTEMPTS : ℕ := 3

/-- Module constant `RETRY_DELAY = 2` seconds. -/
def RETRY_DELAY : ℕ := 2

/-- The `for attempt in range(max_retries)` loop of `fetch_with_retry`,
at loop index `attempt` with `remaining` iterations left.  Returns the
function's result together with the list of `asyncio.sleep` delays
performed, in order. -/
def fetchLoop (outcomes : ℕ → HttpOutcome) : ℕ → ℕ → Option PyVal × List ℕ
  | _, 0 => (Option.none, [])
  | attempt, remaining + 1 =>
    match outcomes attempt with
    | .ok body => (some body, [])
    | .badStatus => (Option.none, [])
    | .rateLimited =>
      let rest := fetchLoop outcomes (attempt + 1) remaining
      (rest.1, RETRY_DELAY * 2 ^ attempt :: rest.2)
    | .exc =>
      if remaining = 0 then (Option.none, [])
      else
        let rest := fetchLoop outcomes (attempt + 1) remaining
        (rest.1, RETRY_DELAY * 2 ^ attempt :: rest.2)

/-- Model of `fetch_with_retry(session, url, headers, max_retries)`, abstracted
over the per-attempt network outcome.  `none` in the first component is
Python's `None` failure signal; the second component is the backoff
sleeps performed. -/
def fetch_with_retry (outcomes : ℕ → HttpOutcome) (maxRetries : ℕ) :
    Option PyVal × List ℕ :=
  fetchLoop outcomes 0 maxRetries

/-! ### Neynar helpers and per-user ingestion (lines 64-123) -/

/-- Model of `get_user_by_username`, applied to the value `fetch_with_retry`
returned (`PyVal.none` when the fetch failed).  Outer `none` = a raised
exception (`data.get` on a truthy non-dict). -/
def get_user_by_username (data : PyVal) : Option PyVal :=
  if truthy data then pyGet data "user" PyVal.none else some PyVal.none

/-- Model of `get_popular_casts`, applied to the value `fetch_with_retry`
returned for the popular-feed URL. -/
def get_popular_casts (data : PyVal) : Option PyVal :=
  if truthy data then pyGet data "casts" (.list []) else some PyVal.none

/-- Outcome tags returned by `fetch_casts_for_user` (the spec calls
`user_fetch_failed` "user_not_found" and `casts_fetch_failed`
"content_fetch_failed"). -/
inductive IngestTag where
  | cached
  | user_fetch_failed
  | casts_fetch_failed
  | fetched

/-- The fetcher invocations `fetch_casts_for_user` performs, in order. -/
inductive FetchCall where
  | userByUsername
  | popularCasts (fid : PyVal)

/-- The cached snapshot dict written by `fetch_casts_for_user`
(lines 106-121): cast texts, a six-field profile snapshot, the raw
casts, and the fetch timestamp. -/
def mkCastsSnapshot (user casts : PyVal) (now : String) : Option PyVal := do
  let castList ← pyIter casts
  let texts ← castList.mapM (fun cast => pyGet cast "text" (.str ""))
  let fid ← pyGet user "fid" .none
  let username ← pyGet user "username" .none
  let displayName ← pyGet user "display_name" .none
  let pfp ← pyGet user "pfp_url" .none
  let followers ← pyGet user "follower_count" .none
  let following ← pyGet user "following_count" .none
  pure (.dict [("cast_texts", .list texts),
               ("user", .dict [("fid", fid), ("username", username),
                               ("display_name", displayName), ("pfp_url", pfp),
                               ("follower_count", followers),
                               ("following_count", following)]),
               ("casts", casts),
               ("fetched_at", .str now)])

/-- Result of one subject's ingestion: the `(success, status)` pair
returned to `main`, the fetcher calls made, and the snapshot written to
the cache (if any). -/
structure IngestResult where
  ok : Bool
  tag : IngestTag
  calls : List FetchCall
  wrote : Option PyVal

/-- Model of `fetch_casts_for_user` (lines 86-123), abstracted over the cache
probe (`output_file.exists()`) and the JSON values the two fetcher calls
return (`PyVal.none` for a failed fetch).  `none` = a raised
exception. -/
def fetch_casts_for_user (cacheHit : Bool) (userData castsData : PyVal)
    (now : String) : Option IngestResult :=
  if cacheHit then some ⟨true, .cached, [], Option.none⟩
  else do
    let user ← get_user_by_username userData
    if ¬ truthy user then
      some ⟨false, .user_fetch_failed, [.userByUsername], Option.none⟩
    else do
      let fid ← pySubscript user "fid"
      let casts ← get_popular_casts castsData
      if casts.isNone then
        some ⟨false, .casts_fetch_failed,
              [.userByUsername, .popularCasts fid], Option.none⟩
      else do
        let snapshot ← mkCastsSnapshot user casts now
        some ⟨true, .fetched, [.userByUsername, .popularCasts fid],
              some snapshot⟩

/-! ### Classification invoker (`classify_creator`, lines 126-220) -/

/-- Decimal rendering of a Python number (exact for the integers the
pipeline interpolates; non-integers rendered as a fraction). -/
def numStr (q : ℚ) : String :=
  if q.den = 1 then toString q.num else toString q.num ++ "/" ++ toString q.den

mutual

/-- Python `repr` of a JSON-shaped value (used for values nested inside
containers interpolated into the prompt f-string). -/
def pyRepr : PyVal → String
  | .none => "None"
  | .bool b => if b then "True" else "False"
  | .num q => numStr q
  | .str s => "'" ++ s ++ "'"
  | .list xs => "[" ++ pyReprList xs ++ "]"
  | .dict es => "\x7b" ++ pyReprDict es ++ "\x7d"

def pyReprList : List PyVal → String
  | [] => ""
  | [x] => pyRepr x
  | x :: xs => pyRepr x ++ ", " ++ pyReprList xs

def pyReprDict : List (String × PyVal) → String
  | [] => ""
  | [p] => "'" ++ p.1 ++ "': " ++ pyRepr p.2
  | p :: ps => "'" ++ p.1 ++ "': " ++ pyRepr p.2 ++ ", " ++ pyReprDict ps

end

/-- Python `str` as used by f-string interpolation: strings verbatim,
everything else via `repr`. -/
def pyStr : PyVal → String
  | .str s => s
  | v => pyRepr v

/-- Module constant `CLASSIFICATION_CATEGORIES` (lines 22-27). -/
def CLASSIFICATION_CATEGORIES : List String :=
  ["Builder - Creates tools, apps, technical projects, infrastructure, open source software, launches products",
   "Creative - Creates art, design, music, visual content, memes, creative expression, digital collectibles",
   "Influencer - Well-known industry figures (typically >50k followers) who primarily share insights, commentary, and opinions. May have technical backgrounds but current content focuses on thought leadership rather than active product development",
   "Lifestyle - Personal updates, daily life, travel, food, fitness, wellness, personal brand, general social engagement"]

/-- Model of `'\n\n'.join([f"\x7bi+1\x7d. \x7btext\x7d" for i, text in enumerate(cast_texts)])`. -/
def castContentOf (texts : List PyVal) : String :=
  String.intercalate "\n\n"
    (texts.enum.map (fun p => toString (p.1 + 1) ++ ". " ++ pyStr p.2))

/-- Model of `'\n'.join([f"\x7bi+1\x7d. \x7bcat\x7d" for i, cat in enumerate(CLASSIFICATION_CATEGORIES)])`. -/
def categoriesText : String :=
  String.intercalate "\n"
    (CLASSIFICATION_CATEGORIES.enum.map (fun p => toString (p.1 + 1) ++ ". " ++ p.2))

/-- The classification prompt f-string (lines 142-174), built from the
user snapshot, the extracted bio and the cast texts.  `none` = a raised
exception (non-iterable `cast_texts` or non-dict `user`). -/
def promptOf (user bio castTexts : PyVal) : Option String := do
  let texts ← pyIter castTexts
  let nTexts ← pyLen castTexts
  let username ← pyGet user "username" .none
  let displayName ← pyGet user "display_name" .none
  let followers ← pyGet user "follower_count" .none
  let following ← pyGet user "following_count" .none
  pure ("You are analyzing a Farcaster (decentralized social media) user to classify their primary creator type.\n\n"
    ++ "**User Information:**\n"
    ++ "- Username: " ++ pyStr username ++ "\n"
    ++ "- Display Name: " ++ pyStr displayName ++ "\n"
    ++ "- Bio: " ++ pyStr bio ++ "\n"
    ++ "- Follower Count: " ++ pyStr followers ++ "\n"
    ++ "- Following Count: " ++ pyStr following ++ "\n\n"
    ++ "**Recent Cast Content (" ++ toString nTexts ++ " casts):**\n"
    ++ castContentOf texts ++ "\n\n"
    ++ "**Classification Categories:**\n"
    ++ categoriesText ++ "\n\n"
    ++ "**Examples:**\n"
    ++ "- **Influencer**: Balaji (founder but now focuses on macro commentary and predictions), Jacob Horne (works at Zora but shares industry insights and thought leadership), Vitalik (technical background but primarily thought leader), influential VCs who share market insights\n"
    ++ "- **Builder**: Someone actively shipping products, writing code, launching new tools/apps, working on infrastructure\n"
    ++ "- **Creative**: Artists minting NFTs, musicians releasing songs, designers sharing work, photographers\n"
    ++ "- **Lifestyle**: Fitness journeys, food content, travel updates, personal daily life\n\n"
    ++ "**Task:**\n"
    ++ "Analyze this user's bio and cast content to determine their primary creator classification. Pay special attention to follower count and whether content is primarily thought leadership/commentary (Influencer) vs active building/shipping (Builder).\n\n"
    ++ "Provide your response in the following JSON format:\n"
    ++ "\x7b\n"
    ++ "  \"primary_classification\": \"<one of: Builder, Creative, Influencer, Lifestyle>\",\n"
    ++ "  \"confidence\": \"<High, Medium, or Low>\",\n"
    ++ "  \"reasoning\": \"<2-3 sentences explaining your classification based on their bio and cast content>\",\n"
    ++ "  \"secondary_traits\": [\"<optional list of other notable traits>\"]\n"
    ++ "\x7d\n\n"
    ++ "Only respond with the JSON, no additional text.")

/-- Bio extraction (lines 133-136): start from the sentinel, and when
`casts` is truthy and non-empty follow
`casts[0].get('author', \x7b\x7d).get('profile', \x7b\x7d).get('bio', \x7b\x7d).get('text', 'No bio available')`.
`none` = a raised exception (e.g. `len` of a truthy non-sized value, or
`.get` on a non-dict link of the chain). -/
def bioOf (castData : PyVal) : Option PyVal := do
  let casts ← pyGet castData "casts" (.list [])
  if truthy casts then do
    let n ← pyLen casts
    if 0 < n then do
      let c0 ← pyIndex casts 0
      let author ← pyGet c0 "author" (.dict [])
      let profile ← pyGet author "profile" (.dict [])
      let bio ← pyGet profile "bio" (.dict [])
      pyGet bio "text" (.str "No bio available")
    else pure (.str "No bio available")
  else pure (.str "No bio available")

/-- Observable outcome of one generation attempt: a decoded JSON object
(`success`), or a failure — the service call raising, `response.text`
holding no JSON-shaped substring, or `json.loads` failing — carrying the
exception's message (`fail`). -/
inductive ClassifyAttempt where
  | success (cls : List (String × PyVal))
  | fail (msg : String)

/-- One generation attempt decomposed as in the source (lines 180-197):
service response text (none = the call raised), strip, extract the JSON
substring, decode it (`decode` standing for `json.loads`, which on a
brace-delimited document yields an object). -/
def attemptOutcome (decode : String → Option (List (String × PyVal)))
    (resp : Option String) : ClassifyAttempt :=
  match resp with
  | Option.none => .fail "generation request failed"
  | some t =>
    match extractJson t.trim with
    | Option.none => .fail "No JSON found in response"
    | some j =>
      match decode j with
      | Option.none => .fail "JSON decode failed"
      | some cls => .success cls

/-- The `for attempt in range(RETRY_ATTEMPTS)` generation loop
(lines 178-212) at loop index `attempt` with `remaining` iterations
left: returns the decoded object of the first successful attempt, or
`none` plus the message of the exception raised out of the last attempt,
together with the backoff sleeps performed. -/
def classifyLoop (gen : ℕ → ClassifyAttempt) :
    ℕ → ℕ → Option (List (String × PyVal)) × String × List ℕ
  | _, 0 => (Option.none, "", [])
  | attempt, 1 =>
    (match gen attempt with
     | .success cls => (some cls, "", [])
     | .fail m => (Option.none, m, []))
  | attempt, remaining + 2 =>
    match gen attempt with
    | .success cls => (some cls, "", [])
    | .fail _ =>
      let rest := classifyLoop gen (attempt + 1) (remaining + 1)
      (rest.1, rest.2.1, RETRY_DELAY * 2 ^ attempt :: rest.2.2)

/-- The success dict returned on a decoded classification
(lines 199-207): five leading fields, the spread `**classification`,
then `analyzed_at` — assembled with Python dict-display semantics. -/
def mkSuccess (username displayName bio followerCount : PyVal)
    (castsAnalyzed : ℕ) (cls : List (String × PyVal)) (now : String) : PyVal :=
  .dict (pyDictLit
    ([("username", username), ("display_name", displayName), ("bio", bio),
      ("follower_count", followerCount), ("casts_analyzed", .num castsAnalyzed)]
     ++ cls ++ [("analyzed_at", .str now)]))

/-- The error dict returned after the retry loop exhausts
(lines 214-220). -/
def mkError (username displayName : PyVal) (msg now : String) : PyVal :=
  .dict [("username", username), ("display_name", displayName),
         ("error", .str msg), ("analyzed_at", .str now)]

/-- The value `classify_creator` returns once the prompt pieces are
extracted: run the retry loop and build the success or error dict; the
second component is the backoff sleeps performed. -/
def classifyResult (username displayName bio followerCount : PyVal)
    (castsAnalyzed : ℕ) (gen : ℕ → ClassifyAttempt) (now : String) :
    PyVal × List ℕ :=
  match classifyLoop gen 0 RETRY_ATTEMPTS with
  | (some cls, _, ds) => (mkSuccess username displayName bio followerCount castsAnalyzed cls now, ds)
  | (Option.none, m, ds) => (mkError username displayName m now, ds)

/-- Model of `classify_creator(cast_data, semaphore)` (lines 126-220), abstracted
over the generation service: `gen prompt attempt` is attempt number
`attempt`'s outcome for the given prompt — the prompt is built once,
before the loop, so every attempt re-sends the identical prompt.
`none` = an exception raised outside the `try` (malformed `cast_data`);
otherwise the returned dict and the backoff sleeps performed. -/
def classify_creator (castData : PyVal)
    (gen : String → ℕ → ClassifyAttempt) (now : String) :
    Option (PyVal × List ℕ) := do
  let castTexts ← pyGet castData "cast_texts" (.list [])
  let user ← pyGet castData "user" (.dict [])
  let bio ← bioOf castData
  let prompt ← promptOf user bio castTexts
  let username ← pyGet user "username" .none
  let displayName ← pyGet user "display_name" .none
  let followerCount ← pyGet user "follower_count" .none
  let nTexts ← pyLen castTexts
  pure (classifyResult username displayName bio followerCount nTexts
    (gen prompt) now)

/-! ### Enrichment merge, subject filter, task selection, collection
(`main`, lines 223-357) -/

/-- Model of `process_classification` (lines 305-315): spread the awaited
classification dict and append the four financial fields read off the
originating creator record.  `none` = a raised exception
(non-mapping classification or non-dict creator). -/
def process_classification (classification creator : PyVal) : Option PyVal := do
  let cls ← match classification with
            | .dict es => some es
            | _ => Option.none
  let earnings ← pyGet creator "totalEarningsUsd" .none
  let coinAddress ← pyGet creator "coinAddress" .none
  let marketCap ← pyGet creator "marketCap" .none
  let handle ← pyGet creator "handle" .none
  pure (.dict (pyDictLit
    (cls ++ [("earnings_usd", earnings), ("coin_address", coinAddress),
             ("market_cap", marketCap), ("zora_handle", handle)])))

/-- The step-2 Farcaster-linkage filter body (lines 249-260): whether a
creator record survives into `creators_with_farcaster`.  `none` = a
raised exception (`.get` on a non-`None` non-dict record). -/
def passesFilter (c : PyVal) : Option Bool :=
  match c with
  | .none => some false
  | _ => do
    let socials ← pyGet c "socials" .none
    match socials with
    | .dict _ => do
      let farcaster ← pyGet socials "farcaster" .none
      match farcaster with
      | .dict _ => do
        let username ← pyGet farcaster "username" .none
        pure (truthy username)
      | _ => pure false
    | _ => pure false

/-- Lookup `creator['socials']['farcaster']['username']` (line 293). -/
def usernameOf (c : PyVal) : Option PyVal := do
  let socials ← pySubscript c "socials"
  let farcaster ← pySubscript socials "farcaster"
  pySubscript farcaster "username"

/-- The step-4 task-selection body for one filtered creator
(lines 292-301): probe the cache for `\x7busername\x7d-casts.json`
(`cache` maps the username to the parsed file content when the file
exists) and enqueue a `(cast_data, creator)` classification task only
when the file exists and its `cast_texts` entry is truthy. -/
def selectOne (cache : String → Option PyVal) (c : PyVal) :
    Option (List (PyVal × PyVal)) := do
  let uname ← usernameOf c
  match cache (pyStr uname) with
  | Option.none => pure []
  | some castData => do
    let texts ← pyGet castData "cast_texts" .none
    if truthy texts then pure [(castData, c)] else pure []

/-- The full task list built by the step-4 loop over
`creators_with_farcaster`: each creator appends its zero-or-one
classification tasks in turn. -/
def classificationTasks (cache : String → Option PyVal) :
    List PyVal → Option (List (PyVal × PyVal))
  | [] => some []
  | c :: cs => do
    let ts ← selectOne cache c
    let rest ← classificationTasks cache cs
    pure (ts ++ rest)

/-- The `as_completed` collection loops (lines 276-278 and 319-321): the
in-memory results appended in task-completion order, `order` listing the
indices of `results` (one run's per-task values, in task-creation order)
in the order the tasks completed. -/
def collectInCompletionOrder (results : List PyVal) (order : List ℕ) :
    List PyVal :=
  order.filterMap (fun i => results.get? i)

/-- Step 5 (lines 323-327): `json.dump(classifications, f)` writes the
collected list verbatim — the persisted ResultSet is exactly the
completion-order collection. -/
def savedResultSet (results : List PyVal) (order : List ℕ) : List PyVal :=
  collectInCompletionOrder results order

/-! ### Record-outcome discriminators

`main` discriminates records through `c.get('primary_classification')`
truthiness and `c.get('error')` (lines 333-338). -/

/-- Record entries hold a populated (truthy) `primary_classification`. -/
def hasPopulatedPrimary (es : List (String × PyVal)) : Bool :=
  match alookup es "primary_classification" with
  | some v => truthy v
  | Option.none => false

/-- Record entries hold an `error` field. -/
def hasErrorField (es : List (String × PyVal)) : Bool :=
  (alookup es "error").isSome

/-- Exactly one of populated `primary_classification` / `error` field. -/
def disjointOutcome (es : List (String × PyVal)) : Bool :=
  hasPopulatedPrimary es != hasErrorField es

/-- Lift of `disjointOutcome` to a record value (false on non-dicts). -/
def disjointOutcomeV : PyVal → Bool
  | .dict es => disjointOutcome es
  | _ => false

/-! ### Association-list and dict-display lemmas -/

theorem alookup_nil (k : String) : alookup [] k = Option.none := rfl

theorem alookup_cons (p : String × PyVal) (rest : List (String × PyVal))
    (k : String) :
    alookup (p :: rest) k = if p.1 = k then some p.2 else alookup rest k := rfl

theorem alookupLast_nil (k : String) : alookupLast [] k = Option.none := rfl

theorem alookupLast_cons (p : String × PyVal) (rest : List (String × PyVal))
    (k : String) :
    alookupLast (p :: rest) k =
      match alookupLast rest k with
      | some v => some v
      | Option.none => if p.1 = k then some p.2 else Option.none := rfl

theorem alookup_append (a b : List (String × PyVal)) (k : String) :
    alookup (a ++ b) k =
      match alookup a k with
      | some v => some v
      | Option.none => alookup b k := by
  induction a with
  | nil => simp [alookup]
  | cons p a ih =>
    by_cases hp : p.1 = k
    · simp [alookup_cons, hp]
    · simp [alookup_cons, hp, ih]

theorem alookupLast_append (a b : List (String × PyVal)) (k : String) :
    alookupLast (a ++ b) k =
      match alookupLast b k with
      | some v => some v
      | Option.none => alookupLast a k := by
  induction a with
  | nil =>
    cases h : alookupLast b k <;> simp [alookupLast_nil, h]
  | cons p a ih =>
    rw [List.cons_append, alookupLast_cons, ih, alookupLast_cons]
    cases h : alookupLast b k <;> cases h2 : alookupLast a k <;> simp [h, h2]

theorem alookup_map_other (d : List (String × PyVal)) (k' : String) (v : PyVal)
    (k : String) (hk : k' ≠ k) :
    alookup (d.map (fun p => if p.1 = k' then (p.1, v) else p)) k =
      alookup d k := by
  induction d with
  | nil => rfl
  | cons p d ih =>
    simp only [List.map_cons]
    by_cases hp : p.1 = k'
    · have hpk : p.1 ≠ k := fun h => hk (hp.symm.trans h)
      rw [if_pos hp, alookup_cons, alookup_cons, if_neg hpk, if_neg hpk, ih]
    · by_cases hq : p.1 = k
      · rw [if_neg hp, alookup_cons, alookup_cons, if_pos hq, if_pos hq]
      · rw [if_neg hp, alookup_cons, alookup_cons, if_neg hq, if_neg hq, ih]

theorem alookup_map_self (d : List (String × PyVal)) (k : String) (v : PyVal)
    (h : d.any (fun p => p.1 = k) = true) :
    alookup (d.map (fun p => if p.1 = k then (p.1, v) else p)) k = some v := by
  induction d with
  | nil => simp at h
  | cons p d ih =>
    simp only [List.map_cons]
    by_cases hp : p.1 = k
    · rw [if_pos hp, alookup_cons, if_pos hp]
    · rw [List.any_cons] at h
      have h2 : d.any (fun p => decide (p.1 = k)) = true := by
        cases h2 : (d.any fun p => decide (p.1 = k)) with
        | true => rfl
        | false =>
          rw [h2, Bool.or_false] at h
          exact absurd (of_decide_eq_true h) hp
      rw [if_neg hp, alookup_cons, if_neg hp, ih h2]

theorem alookup_none_of_any_false (d : List (String × PyVal)) (k : String)
    (h : d.any (fun p => p.1 = k) = false) :
    alookup d k = Option.none := by
  induction d with
  | nil => rfl
  | cons p d ih =>
    rw [List.any_cons] at h
    have h1 : decide (p.1 = k) = false := by
      cases h1 : decide (p.1 = k) with
      | true => rw [h1, Bool.true_or] at h; exact absurd h (by simp)
      | false => rfl
    have h2 : (d.any fun p => decide (p.1 = k)) = false := by
      cases h2 : (d.any fun p => decide (p.1 = k)) with
      | true => rw [h2, Bool.or_true] at h; exact absurd h (by simp)
      | false => rfl
    rw [alookup_cons, if_neg (of_decide_eq_false h1), ih h2]

theorem alookup_pyInsert (d : List (String × PyVal)) (kv : String × PyVal)
    (k : String) :
    alookup (pyInsert d kv) k =
      if kv.1 = k then some kv.2 else alookup d k := by
  rw [pyInsert]
  by_cases hany : d.any (fun p => p.1 = kv.1) = true
  · rw [if_pos hany]
    by_cases hk : kv.1 = k
    · subst hk
      rw [if_pos rfl, alookup_map_self d kv.1 kv.2 hany]
    · rw [if_neg hk, alookup_map_other d kv.1 kv.2 k hk]
  · rw [if_neg hany, alookup_append]
    have hf : (d.any fun p => decide (p.1 = kv.1)) = false := by
      cases hb : (d.any fun p => decide (p.1 = kv.1)) with
      | true => exact absurd hb hany
      | false => rfl
    have hnone := alookup_none_of_any_false d kv.1 hf
    by_cases hk : kv.1 = k
    · subst hk
      rw [hnone]
      simp [alookup_cons]
    · rw [if_neg hk]
      cases h2 : alookup d k <;> simp [h2, alookup_cons, alookup_nil, hk]

theorem alookup_foldl_pyInsert (l : List (String × PyVal))
    (acc : List (String × PyVal)) (k : String) :
    alookup (l.foldl pyInsert acc) k =
      match alookupLast l k with
      | some v => some v
      | Option.none => alookup acc k := by
  induction l generalizing acc with
  | nil => simp [alookupLast_nil]
  | cons p l ih =>
    rw [List.foldl_cons, ih, alookupLast_cons]
    cases h : alookupLast l k with
    | some v => simp
    | none =>
      simp only
      rw [alookup_pyInsert]
      by_cases hp : p.1 = k <;> simp [hp]

theorem alookup_pyDictLit (l : List (String × PyVal)) (k : String) :
    alookup (pyDictLit l) k = alookupLast l k := by
  rw [pyDictLit, alookup_foldl_pyInsert]
  cases h : alookupLast l k <;> simp [alookup_nil]

/-! ### Extraction lemmas -/

theorem firstIdx_nil (pred : Char → Bool) : firstIdx pred [] = Option.none := rfl

theorem firstIdx_cons (pred : Char → Bool) (c : Char) (cs : List Char) :
    firstIdx pred (c :: cs) =
      if pred c then some 0 else (firstIdx pred cs).map (· + 1) := rfl

theorem firstIdx_append_none (pred : Char → Bool) (p q : List Char)
    (h : ∀ c ∈ p, pred c = false) :
    firstIdx pred (p ++ q) = (firstIdx pred q).map (· + p.length) := by
  induction p with
  | nil =>
    cases h2 : firstIdx pred q <;> simp [h2]
  | cons c p ih =>
    have hc : pred c = false := h c (List.mem_cons_self c p)
    have hp : ∀ x ∈ p, pred x = false := fun x hx => h x (List.mem_cons_of_mem _ hx)
    rw [List.cons_append, firstIdx_cons, hc]
    simp only [Bool.false_eq_true, if_false, ih hp]
    cases h2 : firstIdx pred q <;> simp [h2, Nat.add_assoc]

theorem firstIdx_cons_true (pred : Char → Bool) (c : Char) (cs : List Char)
    (h : pred c = true) : firstIdx pred (c :: cs) = some 0 := by
  rw [firstIdx_cons, h]
  simp

theorem extractJsonL_embedded (p1 obj p2 : List Char)
    (hp1 : ∀ c ∈ p1, c ≠ '{' ∧ c ≠ '}')
    (hp2 : ∀ c ∈ p2, c ≠ '{' ∧ c ≠ '}')
    (hhead : obj.head? = some '{') (hlast : obj.getLast? = some '}') :
    extractJsonL (p1 ++ obj ++ p2) = some obj := by
  -- Decompose the object from the left and from the right.
  obtain ⟨t, rfl⟩ : ∃ t, obj = '{' :: t := by
    cases obj with
    | nil => simp at hhead
    | cons c t =>
      rw [List.head?_cons] at hhead
      exact ⟨t, by rw [Option.some.injEq] at hhead; rw [hhead]⟩
  have hrev : ∃ u, ('{' :: t).reverse = '}' :: u := by
    have hh : ('{' :: t).reverse.head? = some '}' := by
      rw [List.head?_reverse]; exact hlast
    cases hr : ('{' :: t).reverse with
    | nil => rw [hr] at hh; simp at hh
    | cons c u =>
      rw [hr, List.head?_cons, Option.some.injEq] at hh
      exact ⟨u, by rw [hh]⟩
  obtain ⟨u, hu⟩ := hrev
  have ht : t ≠ [] := by
    intro h0
    subst h0
    simp at hlast
  have hn : 2 ≤ ('{' :: t).length := by
    rw [List.length_cons]
    have := List.length_pos.mpr ht
    omega
  -- First opening brace of the whole text.
  have hA : firstIdx (fun c => c = '{') (p1 ++ ('{' :: t) ++ p2) =
      some p1.length := by
    rw [List.append_assoc, firstIdx_append_none _ p1 _
      (fun c hc => by simp [(hp1 c hc).1]),
      List.cons_append, firstIdx_cons_true _ _ _ (by simp)]
    simp
  -- Last closing brace of the whole text.
  have hB : firstIdx (fun c => c = '}') (p1 ++ ('{' :: t) ++ p2).reverse =
      some p2.length := by
    rw [List.reverse_append, List.reverse_append, firstIdx_append_none _ _ _
      (fun c hc => by simp [(hp2 c (List.mem_reverse.mp hc)).2]),
      hu, List.cons_append, firstIdx_cons_true _ _ _ (by simp),
      List.length_reverse]
    simp
  have hlen : (p1 ++ ('{' :: t) ++ p2).length =
      p1.length + ('{' :: t).length + p2.length := by
    simp
    omega
  rw [extractJsonL, hA, lastIdx, hB]
  simp only [Option.map_some']
  rw [if_pos (by omega)]
  have hj : (p1 ++ ('{' :: t) ++ p2).length - 1 - p2.length - p1.length + 1 =
      ('{' :: t).length := by omega
  rw [hj, List.append_assoc, List.drop_left, List.take_left]

/-- String-level version: a response made of brace-free prose around a
brace-delimited object extracts to exactly that object. -/
theorem extractJson_embedded (p1 obj p2 : List Char)
    (hp1 : ∀ c ∈ p1, c ≠ '{' ∧ c ≠ '}')
    (hp2 : ∀ c ∈ p2, c ≠ '{' ∧ c ≠ '}')
    (hhead : obj.head? = some '{') (hlast : obj.getLast? = some '}') :
    extractJson (String.mk (p1 ++ obj ++ p2)) = some (String.mk obj) := by
  rw [extractJson]
  have hl : (String.mk (p1 ++ obj ++ p2)).toList = p1 ++ obj ++ p2 := rfl
  rw [hl, extractJsonL_embedded p1 obj p2 hp1 hp2 hhead hlast]
  rfl

/-! ### Loop lemmas -/

/-- A successful result out of the generation loop always comes from some
attempt's successful decode. -/
theorem classifyLoop_success (gen : ℕ → ClassifyAttempt) :
    ∀ (r a : ℕ) (cls : List (String × PyVal)) (m : String) (ds : List ℕ),
      classifyLoop gen a r = (some cls, m, ds) →
      ∃ k, gen k = ClassifyAttempt.success cls
  | 0, a, cls, m, ds => by
    intro h
    simp [classifyLoop] at h
  | 1, a, cls, m, ds => by
    intro h
    rw [classifyLoop] at h
    cases hg : gen a with
    | success cls2 =>
      rw [hg] at h
      simp only [Prod.mk.injEq, Option.some.injEq] at h
      exact ⟨a, by rw [hg, h.1]⟩
    | fail m2 =>
      rw [hg] at h
      simp at h
  | (r + 2), a, cls, m, ds => by
    intro h
    rw [classifyLoop] at h
    cases hg : gen a with
    | success cls2 =>
      rw [hg] at h
      simp only [Prod.mk.injEq, Option.some.injEq] at h
      exact ⟨a, by rw [hg, h.1]⟩
    | fail m2 =>
      rw [hg] at h
      simp only at h
      cases hr : classifyLoop gen (a + 1) (r + 1) with
      | mk o rest2 =>
        rw [hr] at h
        simp only [Prod.mk.injEq] at h
        exact classifyLoop_success gen (r + 1) (a + 1) cls rest2.1 rest2.2
          (by rw [hr, h.1])

/-- Collecting `results.get?` over `range results.length` is the
identity. -/
theorem filterMap_get_range (l : List PyVal) :
    (List.range l.length).filterMap (fun i => l.get? i) = l := by
  induction l with
  | nil => rfl
  | cons a l ih =>
    rw [List.length_cons, List.range_succ_eq_map]
    have h0 : (fun i => (a :: l).get? i) 0 = some a := rfl
    rw [List.filterMap_cons]
    simp only [h0]
    rw [List.filterMap_map]
    have hc : ((fun i => (a :: l).get? i) ∘ Nat.succ) = fun i => l.get? i := by
      funext i
      simp
    rw [hc, ih]

/-! ### Claim theorems -/

/-- C2: the response-parsing step extracts the substring running from the
first opening brace to the last closing brace of the entire response and
JSON-decodes it; in particular, for any response consisting of brace-free
prose, followed by one object holding all of the response's brace
characters, followed by brace-free prose, the embedded object is
extracted exactly and hence decoded correctly (for any decoder standing
for `json.loads`). -/
theorem c2_prose_wrapped_object_decoded (p1 obj p2 : List Char)
    (decode : String → Option (List (String × PyVal)))
    (hp1 : ∀ c ∈ p1, c ≠ '{' ∧ c ≠ '}')
    (hp2 : ∀ c ∈ p2, c ≠ '{' ∧ c ≠ '}')
    (hhead : obj.head? = some '{') (hlast : obj.getLast? = some '}') :
    extractJson (String.mk (p1 ++ obj ++ p2)) = some (String.mk obj) ∧
    (extractJson (String.mk (p1 ++ obj ++ p2))).bind decode =
      decode (String.mk obj) := by
  have h := extractJson_embedded p1 obj p2 hp1 hp2 hhead hlast
  exact ⟨h, by rw [h, Option.some_bind]⟩

theorem c2_prose_wrapped_object_decoded_witness :
    extractJson (String.mk (['p', 'r', 'o', 's', 'e', ' ']
        ++ ['{', '\"', 'a', '\"', ':', '1', '}'] ++ [' ', 'e', 'n', 'd'])) =
      some (String.mk ['{', '\"', 'a', '\"', ':', '1', '}']) ∧
    (extractJson (String.mk (['p', 'r', 'o', 's', 'e', ' ']
        ++ ['{', '\"', 'a', '\"', ':', '1', '}'] ++ [' ', 'e', 'n', 'd']))).bind
        (fun s => if s = String.mk ['{', '\"', 'a', '\"', ':', '1', '}']
                  then some [("a", PyVal.num 1)] else Option.none) =
      (fun s => if s = String.mk ['{', '\"', 'a', '\"', ':', '1', '}']
                then some [("a", PyVal.num 1)] else Option.none)
        (String.mk ['{', '\"', 'a', '\"', ':', '1', '}']) :=
  c2_prose_wrapped_object_decoded _ _ _ _
    (by decide) (by decide) (by decide) (by decide)

/-- C3: a fetch whose first two attempts see HTTP 429 and whose third
sees 200 with a JSON body returns that body, having slept exactly twice
with the strictly increasing delays `RETRY_DELAY * 2 ^ 0` and
`RETRY_DELAY * 2 ^ 1`; and a 429 consumes the same shared 3-attempt
counter as other failures — one 429 followed by two transport errors
exhausts the budget and fails. -/
theorem c3_rate_limit_retry (o o2 : ℕ → HttpOutcome) (body : PyVal)
    (h0 : o 0 = .rateLimited) (h1 : o 1 = .rateLimited) (h2 : o 2 = .ok body)
    (g0 : o2 0 = .rateLimited) (g1 : o2 1 = .exc) (g2 : o2 2 = .exc) :
    fetch_with_retry o RETRY_ATTEMPTS =
      (some body, [RETRY_DELAY * 2 ^ 0, RETRY_DELAY * 2 ^ 1]) ∧
    RETRY_DELAY * 2 ^ 0 < RETRY_DELAY * 2 ^ 1 ∧
    fetch_with_retry o2 RETRY_ATTEMPTS =
      (Option.none, [RETRY_DELAY * 2 ^ 0, RETRY_DELAY * 2 ^ 1]) := by
  refine ⟨?_, by norm_num [RETRY_DELAY], ?_⟩
  · simp [fetch_with_retry, fetchLoop, RETRY_ATTEMPTS, h0, h1, h2, RETRY_DELAY]
  · simp [fetch_with_retry, fetchLoop, RETRY_ATTEMPTS, g0, g1, g2, RETRY_DELAY]

/-- Outcome sequence: two rate limits then a success. -/
def twoRateLimitsThenOk : ℕ → HttpOutcome :=
  fun k => if k < 2 then .rateLimited else .ok (.num 7)

/-- Outcome sequence: a rate limit then transport errors. -/
def rateLimitThenErrors : ℕ → HttpOutcome :=
  fun k => if k = 0 then .rateLimited else .exc

theorem c3_rate_limit_retry_witness :
    fetch_with_retry twoRateLimitsThenOk RETRY_ATTEMPTS =
      (some (.num 7), [RETRY_DELAY * 2 ^ 0, RETRY_DELAY * 2 ^ 1]) ∧
    RETRY_DELAY * 2 ^ 0 < RETRY_DELAY * 2 ^ 1 ∧
    fetch_with_retry rateLimitThenErrors RETRY_ATTEMPTS =
      (Option.none, [RETRY_DELAY * 2 ^ 0, RETRY_DELAY * 2 ^ 1]) :=
  c3_rate_limit_retry twoRateLimitsThenOk rateLimitThenErrors (.num 7)
    rfl rfl rfl rfl rfl rfl

/-- Outcome sequence: a non-200/non-429 status, then successes. -/
def badStatusThenOk : ℕ → HttpOutcome :=
  fun k => if k = 0 then .badStatus else .ok (.num 1)

/-- C4 (counterexample): the claim says a non-200/non-429 status is
retried up to the 3-attempt budget; the code instead returns `None`
immediately on the first such status — here a success is available on
attempt 1, yet the fetch fails with zero retries and zero sleeps. -/
theorem c4_counterexample :
    fetch_with_retry badStatusThenOk RETRY_ATTEMPTS = (Option.none, []) ∧
    badStatusThenOk 1 = .ok (.num 1) :=
  ⟨rfl, rfl⟩

/-- C4 (amended): transport errors (including timeout) are retried up to
the fixed 3-attempt budget with backoff and then surfaced as `None`; a
non-200/non-429 HTTP status makes `fetch_with_retry` return `None`
immediately, without consuming further attempts; in both cases the
caller receives a failure signal rather than an exception. -/
theorem c4_no_retry_on_bad_status (o o2 : ℕ → HttpOutcome)
    (h : ∀ k, k < RETRY_ATTEMPTS → o k = .exc) (h2 : o2 0 = .badStatus) :
    fetch_with_retry o RETRY_ATTEMPTS =
      (Option.none, [RETRY_DELAY * 2 ^ 0, RETRY_DELAY * 2 ^ 1]) ∧
    fetch_with_retry o2 RETRY_ATTEMPTS = (Option.none, []) := by
  constructor
  · simp [fetch_with_retry, fetchLoop, RETRY_ATTEMPTS, RETRY_DELAY,
      h 0 (by norm_num [RETRY_ATTEMPTS]), h 1 (by norm_num [RETRY_ATTEMPTS]),
      h 2 (by norm_num [RETRY_ATTEMPTS])]
  · simp [fetch_with_retry, fetchLoop, RETRY_ATTEMPTS, h2]

/-- Outcome sequence: transport errors forever. -/
def allTransportErrors : ℕ → HttpOutcome := fun _ => .exc

theorem c4_no_retry_on_bad_status_witness :
    fetch_with_retry allTransportErrors RETRY_ATTEMPTS =
      (Option.none, [RETRY_DELAY * 2 ^ 0, RETRY_DELAY * 2 ^ 1]) ∧
    fetch_with_retry badStatusThenOk RETRY_ATTEMPTS = (Option.none, []) :=
  c4_no_retry_on_bad_status allTransportErrors badStatusThenOk
    (fun _ _ => rfl) rfl

/-- C9 (counterexample): the persisted ResultSet order is the task
completion order, not a stable order — the same per-task results
collected under two different completion orders persist as two different
sequences. -/
theorem c9_counterexample :
    savedResultSet [PyVal.str "A", PyVal.str "B"] [1, 0] ≠
      savedResultSet [PyVal.str "A", PyVal.str "B"] [0, 1] ∧
    savedResultSet [PyVal.str "A", PyVal.str "B"] [0, 1] =
      [PyVal.str "A", PyVal.str "B"] ∧
    savedResultSet [PyVal.str "A", PyVal.str "B"] [1, 0] =
      [PyVal.str "B", PyVal.str "A"] := by
  refine ⟨?_, rfl, rfl⟩
  intro h
  simp [savedResultSet, collectInCompletionOrder, PyVal.str.injEq] at h

/-- C9 (amended): the persisted ResultSet is written in task completion
order (no stable reordering is applied before the write), but its
*contents* are completion-order independent: any completion order that
is a permutation of the task indices persists a permutation of the same
records. -/
theorem c9_content_stable_completion_order (results : List PyVal)
    (order : List ℕ) (h : order.Perm (List.range results.length)) :
    (savedResultSet results order).Perm results := by
  have h2 := h.filterMap (fun i => results.get? i)
  rw [filterMap_get_range] at h2
  exact h2

theorem c9_content_stable_completion_order_witness :
    (savedResultSet [PyVal.str "A", PyVal.str "B"] [1, 0]).Perm
      [PyVal.str "A", PyVal.str "B"] :=
  c9_content_stable_completion_order [PyVal.str "A", PyVal.str "B"] [1, 0]
    (by decide)

/-- C5: per-subject ingestion returns one of the four outcome tags
(spec names `user_not_found` / `content_fetch_failed` for the code's
`user_fetch_failed` / `casts_fetch_failed` strings), in this order: a
cache hit short-circuits with `cached` and performs no fetcher call;
otherwise the profile is resolved (one fetcher call) and a falsy result
tags `user_fetch_failed`; otherwise the bounded content list is fetched
(a second fetcher call) and a `None` result tags `casts_fetch_failed`;
otherwise the snapshot is persisted to the cache and the tag is
`fetched`. -/
theorem c5_ingest_outcomes (userData castsData : PyVal) (now : String) :
    fetch_casts_for_user true userData castsData now =
      some ⟨true, .cached, [], Option.none⟩ ∧
    (∀ u, get_user_by_username userData = some u → truthy u = false →
      fetch_casts_for_user false userData castsData now =
        some ⟨false, .user_fetch_failed, [.userByUsername], Option.none⟩) ∧
    (∀ u fid, get_user_by_username userData = some u → truthy u = true →
      pySubscript u "fid" = some fid →
      get_popular_casts castsData = some PyVal.none →
      fetch_casts_for_user false userData castsData now =
        some ⟨false, .casts_fetch_failed,
              [.userByUsername, .popularCasts fid], Option.none⟩) ∧
    (∀ u fid casts snapshot, get_user_by_username userData = some u →
      truthy u = true → pySubscript u "fid" = some fid →
      get_popular_casts castsData = some casts → casts.isNone = false →
      mkCastsSnapshot u casts now = some snapshot →
      fetch_casts_for_user false userData castsData now =
        some ⟨true, .fetched, [.userByUsername, .popularCasts fid],
              some snapshot⟩) := by
  refine ⟨rfl, ?_, ?_, ?_⟩
  · intro u hu hf
    simp [fetch_casts_for_user, hu, hf]
  · intro u fid hu ht hfid hc
    simp [fetch_casts_for_user, hu, ht, hfid, hc, PyVal.isNone]
  · intro u fid casts snapshot hu ht hfid hc hnn hs
    simp [fetch_casts_for_user, hu, ht, hfid, hc, hnn, hs]

/-- Profile-lookup response holding a user with `fid` 7. -/
def userDataC5 : PyVal := .dict [("user", .dict [("fid", .num 7)])]

/-- Popular-casts response holding one cast. -/
def castsDataC5 : PyVal :=
  .dict [("casts", .list [.dict [("text", .str "gm")]])]

/-- The snapshot `fetch_casts_for_user` writes for `userDataC5` and
`castsDataC5`. -/
def snapshotC5 : PyVal :=
  .dict [("cast_texts", .list [.str "gm"]),
         ("user", .dict [("fid", .num 7), ("username", .none),
                         ("display_name", .none), ("pfp_url", .none),
                         ("follower_count", .none), ("following_count", .none)]),
         ("casts", .list [.dict [("text", .str "gm")]]),
         ("fetched_at", .str "t")]

theorem c5_ingest_outcomes_witness :
    fetch_casts_for_user true PyVal.none PyVal.none "t" =
      some ⟨true, .cached, [], Option.none⟩ ∧
    fetch_casts_for_user false PyVal.none PyVal.none "t" =
      some ⟨false, .user_fetch_failed, [.userByUsername], Option.none⟩ ∧
    fetch_casts_for_user false userDataC5 PyVal.none "t" =
      some ⟨false, .casts_fetch_failed,
            [.userByUsername, .popularCasts (.num 7)], Option.none⟩ ∧
    fetch_casts_for_user false userDataC5 castsDataC5 "t" =
      some ⟨true, .fetched, [.userByUsername, .popularCasts (.num 7)],
            some snapshotC5⟩ :=
  ⟨(c5_ingest_outcomes PyVal.none PyVal.none "t").1,
   (c5_ingest_outcomes PyVal.none PyVal.none "t").2.1 PyVal.none rfl rfl,
   (c5_ingest_outcomes userDataC5 PyVal.none "t").2.2.1
     (.dict [("fid", .num 7)]) (.num 7) rfl rfl rfl rfl,
   (c5_ingest_outcomes userDataC5 castsDataC5 "t").2.2.2
     (.dict [("fid", .num 7)]) (.num 7) (.list [.dict [("text", .str "gm")]])
     snapshotC5 rfl rfl rfl rfl rfl rfl⟩

/-- C10: a filtered subject contributes a classification task — and hence
exactly one record in the output — only if its cache file exists and its
cached `cast_texts` is truthy (non-empty); a subject whose cache file is
absent or whose `cast_texts` is empty is silently dropped: it adds no
task, and its presence in the creator list leaves the task list
unchanged. -/
theorem c10_selection (cache : String → Option PyVal) (c uname : PyVal)
    (hu : usernameOf c = some uname) :
    (cache (pyStr uname) = Option.none → selectOne cache c = some []) ∧
    (∀ cd texts, cache (pyStr uname) = some cd →
      pyGet cd "cast_texts" PyVal.none = some texts → truthy texts = false →
      selectOne cache c = some []) ∧
    (∀ cd texts, cache (pyStr uname) = some cd →
      pyGet cd "cast_texts" PyVal.none = some texts → truthy texts = true →
      selectOne cache c = some [(cd, c)]) ∧
    (∀ pre post, selectOne cache c = some [] →
      classificationTasks cache (pre ++ c :: post) =
        classificationTasks cache (pre ++ post)) := by
  refine ⟨?_, ?_, ?_, ?_⟩
  · intro hmiss
    simp [selectOne, hu, hmiss]
  · intro cd texts hhit htexts hfalsy
    simp [selectOne, hu, hhit, htexts, hfalsy]
  · intro cd texts hhit htexts htruthy
    simp [selectOne, hu, hhit, htexts, htruthy]
  · intro pre post hdrop
    induction pre with
    | nil => simp [classificationTasks, hdrop]
    | cons p pre ih =>
      simp only [List.cons_append, classificationTasks]
      rw [show pre.append (c :: post) = pre ++ c :: post from rfl, ih]
      rfl

/-- Creator record carrying a Farcaster username. -/
def creatorC10 : PyVal :=
  .dict [("socials", .dict [("farcaster", .dict [("username", .str "alice")])])]

/-- Cache with no entry for any subject. -/
def cacheMissC10 : String → Option PyVal := fun _ => Option.none

/-- Cache whose entry for alice has an empty `cast_texts`. -/
def cacheEmptyC10 : String → Option PyVal :=
  fun u => if u = "alice" then some (.dict [("cast_texts", .list [])])
           else Option.none

/-- Cache whose entry for alice has a non-empty `cast_texts`. -/
def cacheFullC10 : String → Option PyVal :=
  fun u => if u = "alice"
           then some (.dict [("cast_texts", .list [.str "shipping"])])
           else Option.none

theorem c10_selection_witness :
    selectOne cacheMissC10 creatorC10 = some [] ∧
    selectOne cacheEmptyC10 creatorC10 = some [] ∧
    selectOne cacheFullC10 creatorC10 =
      some [(.dict [("cast_texts", .list [.str "shipping"])], creatorC10)] ∧
    classificationTasks cacheMissC10 [creatorC10] = some [] :=
  ⟨(c10_selection cacheMissC10 creatorC10 (.str "alice") rfl).1 rfl,
   (c10_selection cacheEmptyC10 creatorC10 (.str "alice") rfl).2.1
     (.dict [("cast_texts", .list [])]) (.list []) rfl rfl rfl,
   (c10_selection cacheFullC10 creatorC10 (.str "alice") rfl).2.2.1
     (.dict [("cast_texts", .list [.str "shipping"])]) (.list [.str "shipping"])
     rfl rfl rfl,
   ((c10_selection cacheMissC10 creatorC10 (.str "alice") rfl).2.2.2 [] []
     ((c10_selection cacheMissC10 creatorC10 (.str "alice") rfl).1 rfl)).trans rfl⟩

/-- Monadic bind on `Option` is `Option.bind`. -/
theorem optionBind_eq_bind {α β : Type} (o : Option α) (f : α → Option β) :
    o >>= f = o.bind f := rfl

/-- Any value `classify_creator` returns is built by `classifyResult`
over the extracted prompt pieces, with every attempt re-sent the same
prompt. -/
theorem classifyCreator_inv (castData : PyVal)
    (gen : String → ℕ → ClassifyAttempt) (now : String) (out : PyVal × List ℕ)
    (h : classify_creator castData gen now = some out) :
    ∃ username displayName bio followerCount nTexts prompt,
      out = classifyResult username displayName bio followerCount nTexts
        (gen prompt) now := by
  simp only [classify_creator, optionBind_eq_bind, Option.bind_eq_some,
    Option.pure_def, Option.some.injEq] at h
  obtain ⟨castTexts, -, user, -, bio, -, prompt, -, username, -,
    displayName, -, followerCount, -, nTexts, -, hout⟩ := h
  exact ⟨username, displayName, bio, followerCount, nTexts, prompt, hout.symm⟩

/-- Provided every decoded object carries a truthy
`primary_classification` and no `error` key, `classifyResult` yields a
record with exactly one of the two discriminator fields. -/
theorem classifyResult_disjoint (u d b f : PyVal) (n : ℕ)
    (gen2 : ℕ → ClassifyAttempt) (now : String)
    (hgen : ∀ k cls, gen2 k = ClassifyAttempt.success cls →
      (∃ v, alookupLast cls "primary_classification" = some v ∧ truthy v = true) ∧
      alookupLast cls "error" = Option.none) :
    disjointOutcomeV (classifyResult u d b f n gen2 now).1 = true := by
  rw [classifyResult]
  cases hres : classifyLoop gen2 0 RETRY_ATTEMPTS with
  | mk o rest =>
    obtain ⟨m, ds⟩ := rest
    cases o with
    | none => rfl
    | some cls =>
      obtain ⟨k, hk⟩ :=
        classifyLoop_success gen2 RETRY_ATTEMPTS 0 cls m ds hres
      obtain ⟨⟨v, hv, hvt⟩, herr⟩ := hgen k cls hk
      simp only [disjointOutcomeV, disjointOutcome, hasPopulatedPrimary,
        hasErrorField, mkSuccess]
      rw [alookup_pyDictLit, alookup_pyDictLit, alookupLast_append,
        alookupLast_append, alookupLast_append, alookupLast_append]
      have h1 : alookupLast [("analyzed_at", PyVal.str now)]
          "primary_classification" = Option.none := rfl
      have h2 : alookupLast [("analyzed_at", PyVal.str now)] "error" =
          Option.none := rfl
      have h3 : alookupLast [("username", u), ("display_name", d), ("bio", b),
          ("follower_count", f), ("casts_analyzed", PyVal.num n)] "error" =
          Option.none := rfl
      rw [h1, h2, hv, herr, h3]
      simp [hvt]

/-- Cast data for a user with empty casts, an empty profile and no cast
texts. -/
def castDataA : PyVal :=
  .dict [("cast_texts", .list []), ("user", .dict []), ("casts", .list [])]

/-- Generation outcome whose decoded JSON object is empty (`\x7b\x7d`),
as when the model answers with a bare `\x7b\x7d`. -/
def genEmptyObject : String → ℕ → ClassifyAttempt :=
  fun _ _ => .success []

/-- C1 (counterexample): when the decoded model JSON object is empty,
the record `classify_creator` returns has *neither* a
`primary_classification` field *nor* an `error` field — the spread
`**classification` contributes nothing — so the disjoint-outcome
invariant fails for this decodable response. -/
theorem c1_counterexample :
    (classify_creator castDataA genEmptyObject "t").map
        (fun p => disjointOutcomeV p.1) = some false ∧
    (classify_creator castDataA genEmptyObject "t").map
        (fun p => (pySubscript p.1 "primary_classification",
                   pySubscript p.1 "error")) =
      some (Option.none, Option.none) :=
  ⟨rfl, rfl⟩

/-- C1 (amended): every record `classify_creator` returns carries either
a populated `primary_classification` or an `error` field — never both,
never neither — *provided* every decoded model JSON object spread into
the success record itself contains a truthy `primary_classification` and
no `error` key (the well-formed outputs the prompt demands); for
arbitrary decoded objects the invariant can fail
(see the counterexample). -/
theorem c1_success_or_error (castData : PyVal)
    (gen : String → ℕ → ClassifyAttempt) (now : String) (out : PyVal × List ℕ)
    (hgen : ∀ p k cls, gen p k = ClassifyAttempt.success cls →
      (∃ v, alookupLast cls "primary_classification" = some v ∧ truthy v = true) ∧
      alookupLast cls "error" = Option.none)
    (hrun : classify_creator castData gen now = some out) :
    disjointOutcomeV out.1 = true := by
  obtain ⟨u, d, b, f, n, prompt, rfl⟩ :=
    classifyCreator_inv castData gen now out hrun
  exact classifyResult_disjoint u d b f n (gen prompt) now
    (fun k cls h => hgen prompt k cls h)

/-- Generation outcome decoding to a well-formed classification
object. -/
def genBuilder : String → ℕ → ClassifyAttempt :=
  fun _ _ => .success [("primary_classification", PyVal.str "Builder")]

theorem c1_success_or_error_witness :
    disjointOutcomeV
      (mkSuccess PyVal.none PyVal.none (PyVal.str "No bio available")
        PyVal.none 0 [("primary_classification", PyVal.str "Builder")] "t",
       ([] : List ℕ)).1 = true :=
  c1_success_or_error castDataA genBuilder "t"
    (mkSuccess PyVal.none PyVal.none (PyVal.str "No bio available")
      PyVal.none 0 [("primary_classification", PyVal.str "Builder")] "t", [])
    (fun _ _ cls h => by
      cases h
      exact ⟨⟨PyVal.str "Builder", rfl, rfl⟩, rfl⟩)
    rfl

/-- C6: when every generation attempt fails (the service call raises, no
JSON-shaped substring is found, or decoding fails), `classify_creator`
retries the invocation up to 3 attempts — each re-sent the identical
prompt (the prompt is built once, before the loop; the model calls
`gen prompt 0`, `gen prompt 1`, `gen prompt 2`) — with exponential
backoff delays `RETRY_DELAY * 2 ^ attempt` between attempts, and only
then returns an Error record whose fields are exactly the identifier,
display name, error message (of the last attempt) and completion
timestamp, with no `primary_classification` field. -/
theorem c6_error_after_retries (castData : PyVal)
    (gen : String → ℕ → ClassifyAttempt) (now m0 m1 m2 : String)
    (out : PyVal × List ℕ)
    (hg : ∀ p, gen p 0 = .fail m0 ∧ gen p 1 = .fail m1 ∧ gen p 2 = .fail m2)
    (hrun : classify_creator castData gen now = some out) :
    out.2 = [RETRY_DELAY * 2 ^ 0, RETRY_DELAY * 2 ^ 1] ∧
    RETRY_DELAY * 2 ^ 0 < RETRY_DELAY * 2 ^ 1 ∧
    ∃ u d, out.1 = mkError u d m2 now ∧
      out.1 = PyVal.dict [("username", u), ("display_name", d),
                          ("error", .str m2), ("analyzed_at", .str now)] ∧
      pySubscript out.1 "error" = some (.str m2) ∧
      pySubscript out.1 "primary_classification" = Option.none := by
  obtain ⟨u, d, b, f, n, prompt, rfl⟩ :=
    classifyCreator_inv castData gen now out hrun
  obtain ⟨g0, g1, g2⟩ := hg prompt
  have hloop : classifyLoop (gen prompt) 0 RETRY_ATTEMPTS =
      (Option.none, m2, [RETRY_DELAY * 2 ^ 0, RETRY_DELAY * 2 ^ 1]) := by
    simp [classifyLoop, RETRY_ATTEMPTS, g0, g1, g2, RETRY_DELAY]
  rw [classifyResult, hloop]
  exact ⟨rfl, by norm_num [RETRY_DELAY], u, d, rfl, rfl, rfl, rfl⟩

/-- Generation outcome that fails on every attempt, with the attempt
index as message. -/
def genAlwaysFail : String → ℕ → ClassifyAttempt :=
  fun _ k => .fail (toString k)

theorem c6_error_after_retries_witness :
    (mkError PyVal.none PyVal.none "2" "t",
      ([RETRY_DELAY * 2 ^ 0, RETRY_DELAY * 2 ^ 1] : List ℕ)).2 =
      [RETRY_DELAY * 2 ^ 0, RETRY_DELAY * 2 ^ 1] ∧
    RETRY_DELAY * 2 ^ 0 < RETRY_DELAY * 2 ^ 1 ∧
    ∃ u d, (mkError PyVal.none PyVal.none "2" "t",
        ([RETRY_DELAY * 2 ^ 0, RETRY_DELAY * 2 ^ 1] : List ℕ)).1 =
        mkError u d "2" "t" ∧
      (mkError PyVal.none PyVal.none "2" "t",
        ([RETRY_DELAY * 2 ^ 0, RETRY_DELAY * 2 ^ 1] : List ℕ)).1 =
        PyVal.dict [("username", u), ("display_name", d),
                    ("error", .str "2"), ("analyzed_at", .str "t")] ∧
      pySubscript (mkError PyVal.none PyVal.none "2" "t",
        ([RETRY_DELAY * 2 ^ 0, RETRY_DELAY * 2 ^ 1] : List ℕ)).1 "error" =
        some (.str "2") ∧
      pySubscript (mkError PyVal.none PyVal.none "2" "t",
        ([RETRY_DELAY * 2 ^ 0, RETRY_DELAY * 2 ^ 1] : List ℕ)).1
        "primary_classification" = Option.none :=
  c6_error_after_retries castDataA genAlwaysFail "t" "0" "1" "2"
    (mkError PyVal.none PyVal.none "2" "t",
      [RETRY_DELAY * 2 ^ 0, RETRY_DELAY * 2 ^ 1])
    (fun _ => ⟨rfl, rfl, rfl⟩) rfl

/-- Subject record of the C7 scenario: `totalEarningsUsd` is the JSON
string `"1500.00"`. -/
def creatorC7 : PyVal :=
  .dict [("totalEarningsUsd", .str "1500.00"), ("coinAddress", .str "0xabc"),
         ("marketCap", .str "12000"), ("handle", .str "alice")]

/-- Decoded classification of the C7 scenario. -/
def clsC7 : PyVal :=
  .dict [("primary_classification", .str "Builder"),
         ("confidence", .str "High"),
         ("reasoning", .str "Ships products"),
         ("secondary_traits", .list [])]

/-- C7 (counterexample): the merge copies `totalEarningsUsd` verbatim,
so for the scenario's Subject the EnrichedRecord's `earnings_usd` is the
*string* `"1500.00"`, which is not equal to the number `1500.00` — the
claimed `earnings_usd == 1500.00` fails (Python `"1500.00" == 1500.00`
is `False`); `primary_classification` is `"Builder"` as claimed. -/
theorem c7_counterexample :
    (process_classification clsC7 creatorC7).map
        (fun r => pySubscript r "earnings_usd") =
      some (some (.str "1500.00")) ∧
    PyVal.str "1500.00" ≠ PyVal.num 1500 ∧
    (process_classification clsC7 creatorC7).map
        (fun r => pySubscript r "primary_classification") =
      some (some (.str "Builder")) :=
  ⟨rfl, fun h => PyVal.noConfusion h, rfl⟩

/-- C7 (amended): the merge step produces exactly one EnrichedRecord
combining the classification dict with the originating Subject's
attributes copied verbatim — `earnings_usd = totalEarningsUsd`,
`coin_address = coinAddress`, `market_cap = marketCap`,
`zora_handle = handle` — while `primary_classification` is whatever the
classification dict held; for the scenario Subject the record's
`earnings_usd` is the string `"1500.00"` (numerically 1500.00 only after
the `float()` coercion applied downstream), not the number `1500.00`. -/
theorem c7_merge_verbatim (es cs : List (String × PyVal)) (e a m h : PyVal)
    (he : alookup cs "totalEarningsUsd" = some e)
    (ha : alookup cs "coinAddress" = some a)
    (hm : alookup cs "marketCap" = some m)
    (hh : alookup cs "handle" = some h) :
    ∃ res, process_classification (.dict es) (.dict cs) = some (.dict res) ∧
      alookup res "earnings_usd" = some e ∧
      alookup res "coin_address" = some a ∧
      alookup res "market_cap" = some m ∧
      alookup res "zora_handle" = some h ∧
      alookup res "primary_classification" =
        alookupLast es "primary_classification" := by
  refine ⟨pyDictLit (es ++ [("earnings_usd", e), ("coin_address", a),
    ("market_cap", m), ("zora_handle", h)]), ?_, ?_, ?_, ?_, ?_, ?_⟩
  · simp [process_classification, pyGet, he, ha, hm, hh]
  · rw [alookup_pyDictLit, alookupLast_append]
    rfl
  · rw [alookup_pyDictLit, alookupLast_append]
    rfl
  · rw [alookup_pyDictLit, alookupLast_append]
    rfl
  · rw [alookup_pyDictLit, alookupLast_append]
    rfl
  · rw [alookup_pyDictLit, alookupLast_append]
    rfl

theorem c7_merge_verbatim_witness :
    ∃ res, process_classification clsC7 creatorC7 = some (.dict res) ∧
      alookup res "earnings_usd" = some (.str "1500.00") ∧
      alookup res "coin_address" = some (.str "0xabc") ∧
      alookup res "market_cap" = some (.str "12000") ∧
      alookup res "zora_handle" = some (.str "alice") ∧
      alookup res "primary_classification" =
        alookupLast [("primary_classification", .str "Builder"),
          ("confidence", .str "High"), ("reasoning", .str "Ships products"),
          ("secondary_traits", .list [])] "primary_classification" :=
  c7_merge_verbatim
    [("primary_classification", .str "Builder"), ("confidence", .str "High"),
     ("reasoning", .str "Ships products"), ("secondary_traits", .list [])]
    [("totalEarningsUsd", .str "1500.00"), ("coinAddress", .str "0xabc"),
     ("marketCap", .str "12000"), ("handle", .str "alice")]
    (.str "1500.00") (.str "0xabc") (.str "12000") (.str "alice")
    rfl rfl rfl rfl

/-- C8: the classification invoker extracts the biography from the first
raw cast's `author.profile.bio.text`; whenever the raw items list is
empty (or the key is absent, defaulting to the empty list), or any link
of the `author`/`profile`/`bio`/`text` key chain is missing, the fixed
sentinel `"No bio available"` is substituted; when the full chain is
present the stored text is returned. -/
theorem c8_bio_extraction (cds : List (String × PyVal)) :
    (alookup cds "casts" = some (.list []) →
      bioOf (.dict cds) = some (.str "No bio available")) ∧
    (alookup cds "casts" = Option.none →
      bioOf (.dict cds) = some (.str "No bio available")) ∧
    (∀ c0 rest es0, alookup cds "casts" = some (.list (c0 :: rest)) →
      c0 = .dict es0 →
      (alookup es0 "author" = Option.none →
        bioOf (.dict cds) = some (.str "No bio available")) ∧
      (∀ aes, alookup es0 "author" = some (.dict aes) →
        (alookup aes "profile" = Option.none →
          bioOf (.dict cds) = some (.str "No bio available")) ∧
        (∀ pes, alookup aes "profile" = some (.dict pes) →
          (alookup pes "bio" = Option.none →
            bioOf (.dict cds) = some (.str "No bio available")) ∧
          (∀ bes, alookup pes "bio" = some (.dict bes) →
            (alookup bes "text" = Option.none →
              bioOf (.dict cds) = some (.str "No bio available")) ∧
            (∀ t, alookup bes "text" = some t →
              bioOf (.dict cds) = some t))))) := by
  refine ⟨?_, ?_, ?_⟩
  · intro hc
    simp [bioOf, pyGet, hc, truthy]
  · intro hc
    simp [bioOf, pyGet, hc, truthy]
  · intro c0 rest es0 hc hc0
    subst hc0
    refine ⟨?_, ?_⟩
    · intro hauth
      simp [bioOf, pyGet, hc, truthy, pyLen, pyIndex, hauth, alookup_nil]
    · intro aes hauth
      refine ⟨?_, ?_⟩
      · intro hprof
        simp [bioOf, pyGet, hc, truthy, pyLen, pyIndex, hauth, hprof,
          alookup_nil]
      · intro pes hprof
        refine ⟨?_, ?_⟩
        · intro hbio
          simp [bioOf, pyGet, hc, truthy, pyLen, pyIndex, hauth, hprof,
            hbio, alookup_nil]
        · intro bes hbio
          refine ⟨?_, ?_⟩
          · intro htext
            simp [bioOf, pyGet, hc, truthy, pyLen, pyIndex, hauth, hprof,
              hbio, htext, alookup_nil]
          · intro t htext
            simp [bioOf, pyGet, hc, truthy, pyLen, pyIndex, hauth, hprof,
              hbio, htext, alookup_nil]

/-- Innermost link of the witness bio chain. -/
def c8TextEntries : List (String × PyVal) :=
  [("text", .str "Building onchain tools")]

/-- Entries of the witness `bio` dict. -/
def c8BioEntries : List (String × PyVal) := [("bio", .dict c8TextEntries)]

/-- Entries of the witness `profile` dict. -/
def c8ProfileEntries : List (String × PyVal) :=
  [("profile", .dict c8BioEntries)]

/-- Entries of the witness first cast. -/
def c8AuthorEntries : List (String × PyVal) :=
  [("author", .dict c8ProfileEntries)]

/-- Cast data whose first cast carries a full
`author.profile.bio.text` chain. -/
def castDataBio : PyVal :=
  .dict [("cast_texts", .list [.str "gm"]), ("user", .dict []),
         ("casts", .list [.dict c8AuthorEntries])]

theorem c8_bio_extraction_witness :
    bioOf castDataA = some (.str "No bio available") ∧
    bioOf castDataBio = some (.str "Building onchain tools") :=
  ⟨(c8_bio_extraction [("cast_texts", .list []), ("user", .dict []),
      ("casts", .list [])]).1 rfl,
   ((((((c8_bio_extraction [("cast_texts", .list [.str "gm"]),
        ("user", .dict []), ("casts", .list [.dict c8AuthorEntries])]).2.2
      (.dict c8AuthorEntries) [] c8AuthorEntries rfl rfl).2
      c8ProfileEntries rfl).2
      c8BioEntries rfl).2
      c8TextEntries rfl).2
      (.str "Building onchain tools") rfl)⟩

end ZoraPipeline
